import Mathlib

set_option maxRecDepth 8192

/- Formal model of the antenna selector firmware (src/transco_select.ino).

   The sketch decodes 7-byte Nextion touch frames from a serial stream,
   enforces single-antenna exclusivity over 8 relays, pulses the selected
   relay with a deadline stored in relayOffTime, and persists the selection
   in two EEPROM cells (a magic byte and an index byte).

   Machine integers are modelled as Nat; the 32-bit millis clock wraps
   modulo U32 where the source adds to it.  Serial output to the display
   is modelled by the last commanded boolean value of each button widget
   (the indicator field); the ghost field emitted records, in order, the
   antenna index of every selection event actually performed. -/

def NB_ANTENNES : Nat := 8

def FIRST_BTN_ID : Nat := 2

def EEPROM_MAGIC_VALUE : Nat := 0xA5

def U32 : Nat := 2 ^ 32

/-- The global state of the sketch: the decoder statics (pos, buffer),
the per-antenna outputs (relay, relayOffTime, indicator), the selection
variable, the two EEPROM cells, and a ghost event log. -/
structure State where
  pos : Nat
  buffer : Nat → Nat
  relay : Nat → Bool
  relayOffTime : Nat → Nat
  indicator : Nat → Bool
  antenneSelectionnee : Int
  eepromMagic : Nat
  eepromSel : Nat
  emitted : List Nat

/-- Pointwise update of a function at one index. -/
def upd {α : Type} (f : Nat → α) (i : Nat) (v : α) : Nat → α :=
  fun j => if j = i then v else f j

/-- setBoutonOff: command button i to the green (off) visual state. -/
def setBoutonOff (s : State) (i : Nat) : State :=
  { s with indicator := upd s.indicator i false }

/-- setBoutonOn: command button i to the red (on) visual state. -/
def setBoutonOn (s : State) (i : Nat) : State :=
  { s with indicator := upd s.indicator i true }

/-- exclusivite: for every antenna other than actif, cut the relay,
cancel the pending deadline and command the button green.  The loop body
acts on each index independently, so it is modelled pointwise. -/
def exclusivite (s : State) (actif : Nat) : State :=
  { s with
    relay := fun i => if i < NB_ANTENNES ∧ i ≠ actif then false else s.relay i
    relayOffTime := fun i => if i < NB_ANTENNES ∧ i ≠ actif then 0 else s.relayOffTime i
    indicator := fun i => if i < NB_ANTENNES ∧ i ≠ actif then false else s.indicator i }

/-- gererTemporisations: for every antenna whose deadline is non-zero and
elapsed (now at or past the deadline), cut the relay and clear the
deadline.  The indicator is left untouched.  now is the millis reading. -/
def gererTemporisations (s : State) (now : Nat) : State :=
  { s with
    relay := fun i =>
      if i < NB_ANTENNES ∧ s.relayOffTime i ≠ 0 ∧ s.relayOffTime i ≤ now
      then false else s.relay i
    relayOffTime := fun i =>
      if i < NB_ANTENNES ∧ s.relayOffTime i ≠ 0 ∧ s.relayOffTime i ≤ now
      then 0 else s.relayOffTime i }

/-- sauvegarderSelection: write the magic value and the index to the two
EEPROM cells. -/
def sauvegarderSelection (s : State) (idx : Nat) : State :=
  { s with eepromMagic := EEPROM_MAGIC_VALUE, eepromSel := idx }

/-- lireSelectionEEPROM: read the two EEPROM cells; return -1 when the
magic byte does not match or the stored index is out of range, otherwise
the stored index. -/
def lireSelectionEEPROM (magic selv : Nat) : Int :=
  if magic ≠ EEPROM_MAGIC_VALUE then -1
  else if NB_ANTENNES ≤ selv then -1
  else (selv : Int)

/-- The body run on a validated frame (lines 139-163 of the source):
filter on page 0 and the button id window, then exclusivity, button red,
selection update, EEPROM save, relay on and deadline now + 2000 ms
(modulo the 32-bit clock). -/
def traiterEvenement (s : State) (page compId now : Nat) : State :=
  if page = 0 then
    if FIRST_BTN_ID ≤ compId ∧ compId < FIRST_BTN_ID + NB_ANTENNES then
      let idx := compId - FIRST_BTN_ID
      let s1 := exclusivite s idx
      let s2 := setBoutonOn s1 idx
      let s3 := { s2 with antenneSelectionnee := (idx : Int) }
      let s4 := sauvegarderSelection s3 idx
      { s4 with
        relay := upd s4.relay idx true
        relayOffTime := upd s4.relayOffTime idx ((now + 2000) % U32)
        emitted := s4.emitted ++ [idx] }
    else s
  else s

/-- One iteration of the receive loop body for one serial byte c: discard
non-0x65 bytes while at position 0, otherwise buffer the byte; once 7
bytes are buffered, validate the window (0x65 header, three 0xFF
terminators), process the event if valid, and reset the position. -/
def recevoirOctet (s : State) (c now : Nat) : State :=
  if s.pos = 0 ∧ c ≠ 0x65 then s
  else
    let s1 := { s with buffer := upd s.buffer s.pos c, pos := s.pos + 1 }
    if 7 ≤ s1.pos then
      let s2 :=
        if s1.buffer 0 = 0x65 ∧ s1.buffer 4 = 0xFF ∧ s1.buffer 5 = 0xFF ∧ s1.buffer 6 = 0xFF
        then traiterEvenement s1 (s1.buffer 1) (s1.buffer 2) now
        else s1
      { s2 with pos := 0 }
    else s1

/-- recevoirEvenementsNextion: drain a list of available serial bytes
through the per-byte decoder.  now is the millis reading during the
drain. -/
def recevoirEvenementsNextion (s : State) (bytes : List Nat) (now : Nat) : State :=
  bytes.foldl (fun st c => recevoirOctet st c now) s

/-- A 7-byte Nextion touch frame. -/
def trame (page compId st : Nat) : List Nat :=
  [0x65, page, compId, st, 0xFF, 0xFF, 0xFF]

/-- The global state right after the relay pins have been driven LOW at
the top of setup: decoder at position 0, all relays off, all deadlines 0
(global initializer), no selection, display widgets in an arbitrary prior
state ind, EEPROM cells holding magic and selv. -/
def etatInitial (ind : Nat → Bool) (magic selv : Nat) : State :=
  { pos := 0
    buffer := fun _ => 0
    relay := fun _ => false
    relayOffTime := fun _ => 0
    indicator := ind
    antenneSelectionnee := -1
    eepromMagic := magic
    eepromSel := selv
    emitted := [] }

/-- setup: force all relays off, load the persisted selection, and when
it is valid replay exclusivity and the red button for it without touching
the relay or its deadline. -/
def setup (ind : Nat → Bool) (magic selv : Nat) : State :=
  let s0 := etatInitial ind magic selv
  let sel := lireSelectionEEPROM magic selv
  let s1 := { s0 with antenneSelectionnee := sel }
  if 0 ≤ sel ∧ sel < (NB_ANTENNES : Int) then
    setBoutonOn (exclusivite s1 sel.toNat) sel.toNat
  else s1

/-- One atomic step of the main loop as seen from the shared state:
either one serial byte is decoded or one timeout scan runs, each at some
millis reading. -/
inductive Step where
  | octet : Nat → Nat → Step
  | scan : Nat → Step

def execStep (s : State) : Step → State
  | Step.octet c now => recevoirOctet s c now
  | Step.scan now => gererTemporisations s now

def run (s : State) (steps : List Step) : State :=
  steps.foldl execStep s

/-- At most one of the 8 relay outputs is energized. -/
def atMostOneRelay (s : State) : Prop :=
  ∀ i j, i < NB_ANTENNES → j < NB_ANTENNES →
    s.relay i = true → s.relay j = true → i = j

/-- A concrete state used to instantiate the hypothesis-bearing
theorems: fresh decoder, everything off, blank EEPROM. -/
def etatTest : State := etatInitial (fun _ => false) 0 0

/-- The buffer contents after the 7 frame bytes have been stored. -/
def buf7 (b : Nat → Nat) (page compId st : Nat) : Nat → Nat :=
  upd (upd (upd (upd (upd (upd (upd b 0 0x65) 1 page) 2 compId) 3 st) 4 0xFF) 5 0xFF) 6 0xFF

/-- The state after one valid selection of antenna 0 at clock 0, used to
instantiate the re-selection theorem. -/
def etatApres0 : State := recevoirEvenementsNextion etatTest (trame 0 2 1) 0

/-- The byte sequence of the resynchronization scenario: the garbage
bytes 0x65 0x00 0xFF followed by a complete valid frame for button 0. -/
def sequenceC2 : List Nat := 0x65 :: 0x00 :: 0xFF :: trame 0 2 1

/-- The state after selecting antenna 0 at the clock reading at which the
deadline computation wraps to exactly 0. -/
def etatC9 : State := recevoirEvenementsNextion etatTest (trame 0 2 1) (U32 - 2000)

/-- The state after selecting antenna 0 at a clock reading at which the
deadline computation wraps past zero to 1000. -/
def etatC9b : State := recevoirEvenementsNextion etatTest (trame 0 2 1) (U32 - 1000)

/-- Claim C3: for every k in [0, 8), saving k (magic value plus k in the
two storage slots) and then loading returns k. -/
theorem persistence_round_trip (s : State) (k : Nat) (hk : k < NB_ANTENNES) :
    lireSelectionEEPROM (sauvegarderSelection s k).eepromMagic
      (sauvegarderSelection s k).eepromSel = (k : Int) := by
  simp [lireSelectionEEPROM, sauvegarderSelection, EEPROM_MAGIC_VALUE]
  omega

theorem persistence_round_trip_witness :
    (3 < NB_ANTENNES) ∧
      lireSelectionEEPROM (sauvegarderSelection etatTest 3).eepromMagic
        (sauvegarderSelection etatTest 3).eepromSel = (3 : Int) :=
  ⟨by decide, persistence_round_trip etatTest 3 (by decide)⟩

/-- Claim C4: loading rejects any record whose magic byte is not 0xA5,
whatever the index byte holds, and any record whose magic byte matches
but whose index byte is at least 8; both return -1. -/
theorem invalid_record_rejected (magic selv : Nat) :
    (magic ≠ EEPROM_MAGIC_VALUE → lireSelectionEEPROM magic selv = -1) ∧
    (NB_ANTENNES ≤ selv → lireSelectionEEPROM EEPROM_MAGIC_VALUE selv = -1) := by
  constructor
  · intro h
    simp [lireSelectionEEPROM, h]
  · intro h
    simp [lireSelectionEEPROM, h]

theorem invalid_record_rejected_witness :
    ((7 : Nat) ≠ EEPROM_MAGIC_VALUE → lireSelectionEEPROM 7 0 = -1) ∧
      (NB_ANTENNES ≤ 200 → lireSelectionEEPROM EEPROM_MAGIC_VALUE 200 = -1) :=
  ⟨fun _ => (invalid_record_rejected 7 0).1 (by decide),
    fun _ => (invalid_record_rejected 0xA5 200).2 (by decide)⟩

/-- The timeout scan only ever turns relays off. -/
lemma gerer_relay_mono {s : State} {now i : Nat}
    (h : (gererTemporisations s now).relay i = true) : s.relay i = true := by
  dsimp [gererTemporisations] at h
  split at h
  · exact absurd h (by simp)
  · exact h

/-- After a validated in-window event, relay i (i < 8) is on exactly when
i is the selected index. -/
lemma traiter_relay_char (s : State) (compId now i : Nat)
    (hin : FIRST_BTN_ID ≤ compId ∧ compId < FIRST_BTN_ID + NB_ANTENNES)
    (hi : i < NB_ANTENNES) :
    (traiterEvenement s 0 compId now).relay i =
      decide (i = compId - FIRST_BTN_ID) := by
  dsimp [traiterEvenement]
  rw [if_pos hin]
  dsimp [sauvegarderSelection, setBoutonOn, exclusivite, upd]
  by_cases hik : i = compId - FIRST_BTN_ID
  · simp [hik]
  · simp [hik, hi]

/-- Processing one event preserves the exclusivity invariant. -/
lemma traiter_atMostOne (s : State) (page compId now : Nat)
    (h : atMostOneRelay s) : atMostOneRelay (traiterEvenement s page compId now) := by
  by_cases hp : page = 0
  · subst hp
    by_cases hin : FIRST_BTN_ID ≤ compId ∧ compId < FIRST_BTN_ID + NB_ANTENNES
    · intro i j hi hj h1 h2
      rw [traiter_relay_char s compId now i hin hi] at h1
      rw [traiter_relay_char s compId now j hin hj] at h2
      simp at h1 h2
      omega
    · dsimp [traiterEvenement]
      rw [if_neg hin]
      exact h
  · dsimp [traiterEvenement]
    rw [if_neg hp]
    exact h

/-- Relay outputs agree pointwise, so the invariant transfers. -/
lemma atMostOne_of_relay_eq {s t : State} (hr : ∀ i, s.relay i = t.relay i)
    (ht : atMostOneRelay t) : atMostOneRelay s := by
  intro i j hi hj h1 h2
  exact ht i j hi hj (by rw [← hr i]; exact h1) (by rw [← hr j]; exact h2)

/-- Decoding one serial byte preserves the exclusivity invariant. -/
lemma octet_atMostOne (s : State) (c now : Nat)
    (h : atMostOneRelay s) : atMostOneRelay (recevoirOctet s c now) := by
  have hbuf : atMostOneRelay
      { s with buffer := upd s.buffer s.pos c, pos := s.pos + 1 } := by
    intro i j hi hj h1 h2
    exact h i j hi hj h1 h2
  dsimp [recevoirOctet]
  split
  · exact h
  · split
    · split
      · intro i j hi hj h1 h2
        exact traiter_atMostOne _ _ _ now hbuf i j hi hj h1 h2
      · intro i j hi hj h1 h2
        exact hbuf i j hi hj h1 h2
    · exact hbuf

/-- The timeout scan preserves the exclusivity invariant. -/
lemma scan_atMostOne (s : State) (now : Nat)
    (h : atMostOneRelay s) : atMostOneRelay (gererTemporisations s now) := by
  intro i j hi hj h1 h2
  exact h i j hi hj (gerer_relay_mono h1) (gerer_relay_mono h2)

/-- Any single loop step preserves the exclusivity invariant. -/
lemma step_atMostOne (s : State) (st : Step)
    (h : atMostOneRelay s) : atMostOneRelay (execStep s st) := by
  cases st with
  | octet c now => exact octet_atMostOne s c now h
  | scan now => exact scan_atMostOne s now h

lemma run_atMostOne (steps : List Step) :
    ∀ s : State, atMostOneRelay s → atMostOneRelay (run s steps) := by
  induction steps with
  | nil => intro s h; exact h
  | cons st rest ih =>
      intro s h
      exact ih (execStep s st) (step_atMostOne s st h)

/-- Every relay is off when setup returns. -/
lemma setup_relay_off (ind : Nat → Bool) (magic selv i : Nat) :
    (setup ind magic selv).relay i = false := by
  dsimp [setup]
  split
  · dsimp [setBoutonOn, exclusivite, etatInitial]
    split <;> rfl
  · rfl

/-- Claim C1: starting from setup with any prior display state and any
EEPROM content, after any interleaving of decoded serial bytes and
timeout scans, at most one of the 8 relay outputs is energized. -/
theorem exclusivite_invariant (ind : Nat → Bool) (magic selv : Nat)
    (steps : List Step) : atMostOneRelay (run (setup ind magic selv) steps) := by
  apply run_atMostOne
  intro i j hi hj h1 _
  rw [setup_relay_off ind magic selv i] at h1
  cases h1

/-- Draining exactly one 7-byte frame from decoder position 0 buffers the
seven bytes, validates the window, runs the event handler on the decoded
page and component id, and resets the position. -/
lemma recevoir_trame (s : State) (h : s.pos = 0) (page compId st now : Nat) :
    recevoirEvenementsNextion s (trame page compId st) now =
      { traiterEvenement
          { s with buffer := buf7 s.buffer page compId st, pos := 7 }
          page compId now
        with pos := 0 } := by
  obtain ⟨p, b, rl, rt, ind, a, m, sv, em⟩ := s
  dsimp at h
  subst h
  simp [recevoirEvenementsNextion, trame, recevoirOctet, buf7, upd]

/-- The event handler on the valid path (page 0, component id in the
button window) written out field by field. -/
lemma traiter_valid (s : State) (k now : Nat) (hk : k < NB_ANTENNES) :
    traiterEvenement s 0 (FIRST_BTN_ID + k) now =
      { s with
        relay := upd (fun i => if i < NB_ANTENNES ∧ i ≠ k then false else s.relay i) k true
        relayOffTime :=
          upd (fun i => if i < NB_ANTENNES ∧ i ≠ k then 0 else s.relayOffTime i) k
            ((now + 2000) % U32)
        indicator := upd (fun i => if i < NB_ANTENNES ∧ i ≠ k then false else s.indicator i) k true
        antenneSelectionnee := (k : Int)
        eepromMagic := EEPROM_MAGIC_VALUE
        eepromSel := k
        emitted := s.emitted ++ [k] } := by
  have hin : FIRST_BTN_ID ≤ FIRST_BTN_ID + k ∧
      FIRST_BTN_ID + k < FIRST_BTN_ID + NB_ANTENNES :=
    ⟨Nat.le_add_right _ _, Nat.add_lt_add_left hk _⟩
  dsimp [traiterEvenement, sauvegarderSelection, setBoutonOn, exclusivite]
  rw [if_pos hin, Nat.add_sub_cancel_left]

/-- The event handler ignores events off page 0 or outside the button id
window: the state is returned unchanged. -/
lemma traiter_invalid (s : State) (page compId now : Nat)
    (h : page ≠ 0 ∨ compId < FIRST_BTN_ID ∨ FIRST_BTN_ID + NB_ANTENNES ≤ compId) :
    traiterEvenement s page compId now = s := by
  dsimp [traiterEvenement]
  by_cases hp : page = 0
  · subst hp
    have hcond : ¬(FIRST_BTN_ID ≤ compId ∧ compId < FIRST_BTN_ID + NB_ANTENNES) := by
      rcases h with h | h | h
      · exact absurd rfl h
      · omega
      · omega
    rw [if_neg hcond]
    rfl
  · rw [if_neg hp]

lemma upd_same {α : Type} (f : Nat → α) (i : Nat) (v : α) : upd f i v i = v := by
  simp [upd]

lemma upd_ne {α : Type} (f : Nat → α) (i j : Nat) (v : α) (h : j ≠ i) :
    upd f i v j = f j := by
  simp [upd, h]

/-- Claim C5: feeding the decoder, at write position 0, the exact frame
0x65 0x00 0x02 0x01 0xFF 0xFF 0xFF maps the touch to antenna 0 and
processes it: relay 0 on, indicator 0 on, every other indicator off and
relay off, selection 0, EEPROM record (magic, 0), and exactly one event
logged. -/
theorem scenario_button0 (s : State) (now : Nat) (h : s.pos = 0) :
    (recevoirEvenementsNextion s (trame 0 2 1) now).relay 0 = true ∧
    (∀ i, i < NB_ANTENNES → i ≠ 0 →
      (recevoirEvenementsNextion s (trame 0 2 1) now).relay i = false) ∧
    (recevoirEvenementsNextion s (trame 0 2 1) now).indicator 0 = true ∧
    (∀ i, i < NB_ANTENNES → i ≠ 0 →
      (recevoirEvenementsNextion s (trame 0 2 1) now).indicator i = false) ∧
    (recevoirEvenementsNextion s (trame 0 2 1) now).antenneSelectionnee = 0 ∧
    (recevoirEvenementsNextion s (trame 0 2 1) now).eepromMagic = EEPROM_MAGIC_VALUE ∧
    (recevoirEvenementsNextion s (trame 0 2 1) now).eepromSel = 0 ∧
    (recevoirEvenementsNextion s (trame 0 2 1) now).emitted = s.emitted ++ [0] := by
  rw [recevoir_trame s h 0 2 1 now]
  have hv := traiter_valid { s with buffer := buf7 s.buffer 0 2 1, pos := 7 } 0 now
    (by decide)
  rw [show FIRST_BTN_ID + 0 = 2 from rfl] at hv
  rw [hv]
  dsimp only
  refine ⟨upd_same _ _ _, ?_, upd_same _ _ _, ?_, rfl, rfl, rfl, rfl⟩
  · intro i hi hne
    rw [upd_ne _ _ _ _ hne, if_pos ⟨hi, hne⟩]
  · intro i hi hne
    rw [upd_ne _ _ _ _ hne, if_pos ⟨hi, hne⟩]

theorem scenario_button0_witness :
    etatTest.pos = 0 ∧
      (recevoirEvenementsNextion etatTest (trame 0 2 1) 42).relay 0 = true ∧
      (recevoirEvenementsNextion etatTest (trame 0 2 1) 42).eepromSel = 0 :=
  ⟨rfl, (scenario_button0 etatTest 42 rfl).1,
    (scenario_button0 etatTest 42 rfl).2.2.2.2.2.2.1⟩

/-- Claim C7: a decoded event off page 0 or with a component id outside
the button window leaves every output, deadline, indicator, the
selection, the stored bytes and the event log unchanged. -/
theorem invalid_event_noop (s : State) (page compId st now : Nat) (h0 : s.pos = 0)
    (h : page ≠ 0 ∨ compId < FIRST_BTN_ID ∨ FIRST_BTN_ID + NB_ANTENNES ≤ compId) :
    (recevoirEvenementsNextion s (trame page compId st) now).relay = s.relay ∧
    (recevoirEvenementsNextion s (trame page compId st) now).relayOffTime = s.relayOffTime ∧
    (recevoirEvenementsNextion s (trame page compId st) now).indicator = s.indicator ∧
    (recevoirEvenementsNextion s (trame page compId st) now).antenneSelectionnee =
      s.antenneSelectionnee ∧
    (recevoirEvenementsNextion s (trame page compId st) now).eepromMagic = s.eepromMagic ∧
    (recevoirEvenementsNextion s (trame page compId st) now).eepromSel = s.eepromSel ∧
    (recevoirEvenementsNextion s (trame page compId st) now).emitted = s.emitted := by
  rw [recevoir_trame s h0 page compId st now,
    traiter_invalid _ page compId now h]
  exact ⟨rfl, rfl, rfl, rfl, rfl, rfl, rfl⟩

theorem invalid_event_noop_witness :
    (etatTest.pos = 0 ∧ ((1 : Nat) ≠ 0 ∨ (2 : Nat) < FIRST_BTN_ID ∨
        FIRST_BTN_ID + NB_ANTENNES ≤ 2)) ∧
      (recevoirEvenementsNextion etatTest (trame 1 2 0) 7).relay = etatTest.relay :=
  ⟨⟨rfl, Or.inl (by decide)⟩,
    (invalid_event_noop etatTest 1 2 0 7 rfl (Or.inl (by decide))).1⟩

/-- Claim C10: a valid event for the antenna that is already selected is
not a no-op: the full path re-runs (relay re-energized, deadline reset to
now + 2000 modulo the clock, indicator re-sent on, index re-persisted,
one more event logged), while the exclusivity pass leaves the active
index relay, indicator and deadline untouched. -/
theorem reselect_not_noop (s : State) (k now : Nat) (h0 : s.pos = 0)
    (hk : k < NB_ANTENNES) (_hsel : s.antenneSelectionnee = (k : Int)) :
    (recevoirEvenementsNextion s (trame 0 (FIRST_BTN_ID + k) 1) now).relay k = true ∧
    (recevoirEvenementsNextion s (trame 0 (FIRST_BTN_ID + k) 1) now).relayOffTime k =
      (now + 2000) % U32 ∧
    (recevoirEvenementsNextion s (trame 0 (FIRST_BTN_ID + k) 1) now).indicator k = true ∧
    (recevoirEvenementsNextion s (trame 0 (FIRST_BTN_ID + k) 1) now).antenneSelectionnee =
      (k : Int) ∧
    (recevoirEvenementsNextion s (trame 0 (FIRST_BTN_ID + k) 1) now).eepromMagic =
      EEPROM_MAGIC_VALUE ∧
    (recevoirEvenementsNextion s (trame 0 (FIRST_BTN_ID + k) 1) now).eepromSel = k ∧
    (recevoirEvenementsNextion s (trame 0 (FIRST_BTN_ID + k) 1) now).emitted =
      s.emitted ++ [k] ∧
    (exclusivite s k).relay k = s.relay k ∧
    (exclusivite s k).indicator k = s.indicator k ∧
    (exclusivite s k).relayOffTime k = s.relayOffTime k := by
  rw [recevoir_trame s h0 0 (FIRST_BTN_ID + k) 1 now,
    traiter_valid _ k now hk]
  dsimp only
  refine ⟨upd_same _ _ _, upd_same _ _ _, upd_same _ _ _, rfl, rfl, rfl, rfl, ?_, ?_, ?_⟩
  · dsimp [exclusivite]
    rw [if_neg (fun hc => hc.2 rfl)]
  · dsimp [exclusivite]
    rw [if_neg (fun hc => hc.2 rfl)]
  · dsimp [exclusivite]
    rw [if_neg (fun hc => hc.2 rfl)]

theorem reselect_not_noop_witness :
    (etatApres0.pos = 0 ∧ 0 < NB_ANTENNES ∧
        etatApres0.antenneSelectionnee = ((0 : Nat) : Int)) ∧
      (recevoirEvenementsNextion etatApres0 (trame 0 (FIRST_BTN_ID + 0) 1) 9).relayOffTime 0 =
        (9 + 2000) % U32 :=
  ⟨⟨by decide, by decide, by decide⟩,
    (reselect_not_noop etatApres0 0 9 (by decide) (by decide) (by decide)).2.1⟩

/-- Claim C6: after a valid selection of antenna k at clock T (no 32-bit
wrap of T + 2000), relay k is energized with deadline T + 2000; a scan at
any clock in [T, T + 2000) leaves it energized; a scan at any clock at or
past T + 2000 de-energizes it and clears the deadline; the indicator for
k is on and the selection is k after the event, and no scan ever changes
the indicators or the selection. -/
theorem timeout_firing (s : State) (k T : Nat) (h0 : s.pos = 0)
    (hk : k < NB_ANTENNES) (hT : T + 2000 < U32) :
    (recevoirEvenementsNextion s (trame 0 (FIRST_BTN_ID + k) 1) T).relay k = true ∧
    (recevoirEvenementsNextion s (trame 0 (FIRST_BTN_ID + k) 1) T).relayOffTime k =
      T + 2000 ∧
    (∀ now, T ≤ now → now < T + 2000 →
      (gererTemporisations
        (recevoirEvenementsNextion s (trame 0 (FIRST_BTN_ID + k) 1) T) now).relay k = true) ∧
    (∀ now, T + 2000 ≤ now →
      (gererTemporisations
        (recevoirEvenementsNextion s (trame 0 (FIRST_BTN_ID + k) 1) T) now).relay k = false ∧
      (gererTemporisations
        (recevoirEvenementsNextion s (trame 0 (FIRST_BTN_ID + k) 1) T) now).relayOffTime k = 0) ∧
    (recevoirEvenementsNextion s (trame 0 (FIRST_BTN_ID + k) 1) T).indicator k = true ∧
    (recevoirEvenementsNextion s (trame 0 (FIRST_BTN_ID + k) 1) T).antenneSelectionnee =
      (k : Int) ∧
    (∀ now,
      (gererTemporisations
          (recevoirEvenementsNextion s (trame 0 (FIRST_BTN_ID + k) 1) T) now).indicator =
        (recevoirEvenementsNextion s (trame 0 (FIRST_BTN_ID + k) 1) T).indicator ∧
      (gererTemporisations
          (recevoirEvenementsNextion s (trame 0 (FIRST_BTN_ID + k) 1) T) now).antenneSelectionnee =
        (recevoirEvenementsNextion s (trame 0 (FIRST_BTN_ID + k) 1) T).antenneSelectionnee) := by
  have hmod : (T + 2000) % U32 = T + 2000 := Nat.mod_eq_of_lt hT
  rw [recevoir_trame s h0 0 (FIRST_BTN_ID + k) 1 T, traiter_valid _ k T hk]
  dsimp only [gererTemporisations]
  refine ⟨upd_same _ _ _, ?_, ?_, ?_, upd_same _ _ _, rfl, fun now => ⟨rfl, rfl⟩⟩
  · rw [upd_same, hmod]
  · intro now hn1 hn2
    rw [if_neg]
    · exact upd_same _ _ _
    · intro hc
      rw [upd_same, hmod] at hc
      omega
  · intro now hn
    have hcond : k < NB_ANTENNES ∧
        upd (fun i => if i < NB_ANTENNES ∧ i ≠ k then 0 else s.relayOffTime i) k
          ((T + 2000) % U32) k ≠ 0 ∧
        upd (fun i => if i < NB_ANTENNES ∧ i ≠ k then 0 else s.relayOffTime i) k
          ((T + 2000) % U32) k ≤ now := by
      refine ⟨hk, ?_, ?_⟩
      · rw [upd_same, hmod]
        omega
      · rw [upd_same, hmod]
        exact hn
    constructor
    · rw [if_pos hcond]
    · rw [if_pos hcond]

theorem timeout_firing_witness :
    (etatTest.pos = 0 ∧ 0 < NB_ANTENNES ∧ 500 + 2000 < U32) ∧
      (gererTemporisations
        (recevoirEvenementsNextion etatTest (trame 0 (FIRST_BTN_ID + 0) 1) 500) 2500).relay 0 =
        false :=
  ⟨⟨rfl, by decide, by decide⟩,
    ((timeout_firing etatTest 0 500 rfl (by decide) (by decide)).2.2.2.1 2500
      (by decide)).1⟩

/-- Claim C2 counterexample: from write position 0, the garbage bytes
0x65 0x00 0xFF followed by the complete valid frame for button 0 yield no
event at all: the first four frame bytes complete the malformed 7-byte
window, the window fails validation and is dropped whole, and the
trailing 0xFF bytes are skipped while scanning for a new 0x65.  No
selection of antenna 0 happens, refuting the claim that exactly one event
is emitted. -/
theorem resync_drops_valid_frame :
    (recevoirEvenementsNextion etatTest sequenceC2 1000).emitted = [] ∧
    (recevoirEvenementsNextion etatTest sequenceC2 1000).relay 0 = false ∧
    (recevoirEvenementsNextion etatTest sequenceC2 1000).antenneSelectionnee = -1 := by
  refine ⟨?_, ?_, ?_⟩ <;> decide

/-- Claim C2 as amended: feeding the decoder, at write position 0, the
bytes 0x65 0x00 0xFF followed by a complete valid 7-byte frame for
button 0 emits zero events: all state outside the decoder window is
unchanged and the write position is back at 0, so the decoder recovers
only from the next 0x65 that arrives after the discarded window. -/
theorem resync_amended_no_event (s : State) (now : Nat) (h : s.pos = 0) :
    (recevoirEvenementsNextion s sequenceC2 now).emitted = s.emitted ∧
    (recevoirEvenementsNextion s sequenceC2 now).pos = 0 ∧
    (recevoirEvenementsNextion s sequenceC2 now).relay = s.relay ∧
    (recevoirEvenementsNextion s sequenceC2 now).relayOffTime = s.relayOffTime ∧
    (recevoirEvenementsNextion s sequenceC2 now).indicator = s.indicator ∧
    (recevoirEvenementsNextion s sequenceC2 now).antenneSelectionnee =
      s.antenneSelectionnee ∧
    (recevoirEvenementsNextion s sequenceC2 now).eepromMagic = s.eepromMagic ∧
    (recevoirEvenementsNextion s sequenceC2 now).eepromSel = s.eepromSel := by
  obtain ⟨p, b, rl, rt, ind, a, m, sv, em⟩ := s
  dsimp at h
  subst h
  simp [sequenceC2, trame, recevoirEvenementsNextion, recevoirOctet, upd]

theorem resync_amended_no_event_witness :
    etatTest.pos = 0 ∧
      (recevoirEvenementsNextion etatTest sequenceC2 5).emitted = etatTest.emitted :=
  ⟨rfl, (resync_amended_no_event etatTest 5 rfl).1⟩

/-- When the stored record is invalid, setup only records the -1
selection. -/
lemma setup_invalid (ind : Nat → Bool) (magic selv : Nat)
    (hv : lireSelectionEEPROM magic selv = -1) :
    setup ind magic selv =
      { etatInitial ind magic selv with antenneSelectionnee := -1 } := by
  dsimp [setup]
  rw [hv]
  rw [if_neg (by decide)]

/-- When the stored record yields index k, setup replays exclusivity and
the red button for k on top of recording the selection. -/
lemma setup_valid (ind : Nat → Bool) (magic selv k : Nat) (hk : k < NB_ANTENNES)
    (hv : lireSelectionEEPROM magic selv = (k : Int)) :
    setup ind magic selv =
      setBoutonOn
        (exclusivite
          { etatInitial ind magic selv with antenneSelectionnee := (k : Int) } k) k := by
  dsimp [setup]
  rw [hv]
  rw [if_pos ⟨Int.natCast_nonneg k, by exact_mod_cast hk⟩, Int.toNat_natCast]

/-- The loader returns -1 or the in-range stored index. -/
lemma lire_cases (magic selv : Nat) :
    lireSelectionEEPROM magic selv = -1 ∨
      (selv < NB_ANTENNES ∧ lireSelectionEEPROM magic selv = (selv : Int)) := by
  dsimp [lireSelectionEEPROM]
  split
  · exact Or.inl rfl
  · split
    · exact Or.inl rfl
    · exact Or.inr ⟨by omega, rfl⟩

/-- Claim C8: at startup every relay is forced off and every deadline is
clear; when the stored record yields a valid index k the indicator steps
are replayed for k (indicator k on, every other indicator off, selection
k) without energizing any relay or arming any deadline; when it yields no
valid index the selection stays -1 and the indicators keep their prior
state. -/
theorem setup_recovery (ind : Nat → Bool) (magic selv : Nat) :
    (∀ i, (setup ind magic selv).relay i = false) ∧
    (∀ i, (setup ind magic selv).relayOffTime i = 0) ∧
    (∀ k : Nat, k < NB_ANTENNES → lireSelectionEEPROM magic selv = (k : Int) →
      (setup ind magic selv).antenneSelectionnee = (k : Int) ∧
      (setup ind magic selv).indicator k = true ∧
      (∀ i, i < NB_ANTENNES → i ≠ k → (setup ind magic selv).indicator i = false)) ∧
    (lireSelectionEEPROM magic selv = -1 →
      (setup ind magic selv).antenneSelectionnee = -1 ∧
      ∀ i, (setup ind magic selv).indicator i = ind i) := by
  refine ⟨setup_relay_off ind magic selv, ?_, ?_, ?_⟩
  · intro i
    rcases lire_cases magic selv with hv | ⟨hk, hv⟩
    · rw [setup_invalid ind magic selv hv]
      rfl
    · rw [setup_valid ind magic selv selv hk hv]
      dsimp [setBoutonOn, exclusivite, etatInitial]
      split <;> rfl
  · intro k hk hv
    rw [setup_valid ind magic selv k hk hv]
    refine ⟨rfl, upd_same _ _ _, ?_⟩
    intro i hi hne
    dsimp [setBoutonOn, exclusivite, etatInitial]
    rw [upd_ne _ _ _ _ hne, if_pos ⟨hi, hne⟩]
  · intro hv
    rw [setup_invalid ind magic selv hv]
    exact ⟨rfl, fun i => rfl⟩

theorem setup_recovery_witness :
    ((3 : Nat) < NB_ANTENNES ∧ lireSelectionEEPROM 0xA5 3 = ((3 : Nat) : Int)) ∧
      (setup (fun _ => true) 0xA5 3).antenneSelectionnee = ((3 : Nat) : Int) ∧
      (setup (fun _ => true) 0xA5 3).indicator 3 = true ∧
      (setup (fun _ => true) 0xA5 3).relay 3 = false :=
  ⟨⟨by decide, by decide⟩,
    ((setup_recovery (fun _ => true) 0xA5 3).2.2.1 3 (by decide) (by decide)).1,
    ((setup_recovery (fun _ => true) 0xA5 3).2.2.1 3 (by decide) (by decide)).2.1,
    (setup_recovery (fun _ => true) 0xA5 3).1 3⟩

/-- Claim C9: when a selection happens at clock U32 - 2000 the stored
deadline is (U32 - 2000 + 2000) mod U32 = 0, which is exactly the
sentinel the scan uses for no pending deadline, so no scan at any clock
reading ever de-energizes the relay; and the scan compares absolute clock
values, so a selection at clock U32 - 1000 stores the wrapped deadline
1000 and the very next scan at the same clock de-energizes the relay
immediately, 2000 ms before the pulse should end. -/
theorem deadline_wrap_sentinel :
    etatC9.relay 0 = true ∧
    etatC9.relayOffTime 0 = 0 ∧
    (∀ now : Nat, (gererTemporisations etatC9 now).relay 0 = true ∧
      (gererTemporisations etatC9 now).relayOffTime 0 = 0) ∧
    etatC9b.relayOffTime 0 = 1000 ∧
    (gererTemporisations etatC9b (U32 - 1000)).relay 0 = false := by
  have hz : etatC9.relayOffTime 0 = 0 := by decide
  refine ⟨by decide, hz, ?_, by decide, by decide⟩
  intro now
  dsimp [gererTemporisations]
  rw [hz]
  constructor
  · rw [if_neg (fun hc => hc.2.1 rfl)]
    decide
  · rw [if_neg (fun hc => hc.2.1 rfl)]
